import Mathlib

/-!
Verification of the StudyConnect 2.0 front-end logic.

This file gives a shallow embedding of the data model and the operations of
the repository (the hard-coded mock databases, the client-side filter
predicates, the upload and delete handlers, and the fallback lookups of the
dynamic pages), and proves or refutes the specification's claims about them.
JavaScript strings are modelled as Lean strings; the ASCII-only
`toLowerCase()` calls of the source are modelled by mapping `Char.toLower`
over the characters; `Array.prototype.filter` is `List.filter`.
-/

namespace StudyConnect

/-! ## Query/Filter primitives

The source repeats the same pattern on every page:
`xs.filter(x => x.field.toLowerCase().includes(query.toLowerCase()) && ...)`.
We embed `String.prototype.includes` as substring containment on the
character lists, and `toLowerCase` as a character-wise lowering map. -/

/-- `startsWithList pat s` holds when `s` begins with `pat`. -/
def startsWithList : List Char → List Char → Bool
  | [], _ => true
  | _ :: _, [] => false
  | a :: as, b :: bs => a == b && startsWithList as bs

/-- `hasSubstring pat s` holds when `pat` occurs contiguously inside `s`;
this is the semantics of JavaScript `s.includes(pat)`. -/
def hasSubstring : List Char → List Char → Bool
  | pat, [] => startsWithList pat []
  | pat, c :: cs => startsWithList pat (c :: cs) || hasSubstring pat cs

/-- Embeds `String.prototype.toLowerCase` (ASCII data only in this app). -/
def jsToLower (s : String) : String :=
  String.mk (s.data.map Char.toLower)

/-- Embeds `s.includes(pat)` for JavaScript strings. -/
def jsIncludes (s pat : String) : Bool :=
  hasSubstring pat.data s.data

/-- Specification-level statement that `pat` is a contiguous substring of
`s`: some split of `s` exhibits `pat` in the middle. -/
def SubstringOf (pat s : String) : Prop :=
  ∃ l r, s.data = l ++ pat.data ++ r

theorem startsWithList_iff (pat s : List Char) :
    startsWithList pat s = true ↔ ∃ r, s = pat ++ r := by
  induction pat generalizing s with
  | nil =>
      simp [startsWithList]
  | cons a as ih =>
      cases s with
      | nil => simp [startsWithList]
      | cons b bs =>
          simp only [startsWithList, Bool.and_eq_true, beq_iff_eq, ih]
          constructor
          · rintro ⟨rfl, r, rfl⟩
            exact ⟨r, rfl⟩
          · rintro ⟨r, h⟩
            simp only [List.cons_append, List.cons.injEq] at h
            obtain ⟨rfl, h2⟩ := h
            exact ⟨rfl, r, h2⟩

theorem hasSubstring_iff (pat s : List Char) :
    hasSubstring pat s = true ↔ ∃ l r, s = l ++ pat ++ r := by
  induction s with
  | nil =>
      simp only [hasSubstring, startsWithList_iff]
      constructor
      · rintro ⟨r, h⟩
        exact ⟨[], r, by simpa using h⟩
      · rintro ⟨l, r, h⟩
        cases l with
        | nil => exact ⟨r, by simpa using h⟩
        | cons x xs => simp at h
  | cons c cs ih =>
      simp only [hasSubstring, Bool.or_eq_true, startsWithList_iff, ih]
      constructor
      · rintro (⟨r, h⟩ | ⟨l, r, h⟩)
        · exact ⟨[], r, by simpa using h⟩
        · exact ⟨c :: l, r, by simp [h]⟩
      · rintro ⟨l, r, h⟩
        cases l with
        | nil => exact Or.inl ⟨r, by simpa using h⟩
        | cons x xs =>
            simp only [List.cons_append] at h
            exact Or.inr ⟨xs, r, List.tail_eq_of_cons_eq h⟩

theorem jsIncludes_iff (s pat : String) :
    jsIncludes s pat = true ↔ SubstringOf pat s := by
  simp [jsIncludes, SubstringOf, hasSubstring_iff]

/-- The empty pattern is a substring of everything, so
`s.includes("")` is always true (as in JavaScript). -/
theorem jsIncludes_empty (s : String) : jsIncludes s "" = true := by
  rw [jsIncludes_iff]
  exact ⟨[], s.data, by simp [String.data]⟩

/-! ## Resources Library page (`src/app/resources/page.tsx`)

The mock database `allResources`, the category chips, and the
`filteredResources` computation. -/

/-- One entry of the `allResources` mock database. -/
structure Resource where
  id : Nat
  title : String
  subject : String
  type : String
  size : String
  color : String
  textColor : String
  deriving DecidableEq, Repr

def resource1 : Resource :=
  { id := 1, title := "Calculus 101 Finals", subject := "Mathematics", type := "PDF",
    size := "2.4 MB", color := "bg-red-50 dark:bg-red-900/20",
    textColor := "text-red-500 dark:text-red-400" }

def resource2 : Resource :=
  { id := 2, title := "Data Structures Notes", subject := "Comp. Sci", type := "DOC",
    size := "1.1 MB", color := "bg-blue-50 dark:bg-blue-900/20",
    textColor := "text-blue-500 dark:text-blue-400" }

def resource3 : Resource :=
  { id := 3, title := "Physics Lab Results", subject := "Physics", type := "XLS",
    size := "800 KB", color := "bg-green-50 dark:bg-green-900/20",
    textColor := "text-green-600 dark:text-green-400" }

def resource4 : Resource :=
  { id := 4, title := "Linear Algebra Intro", subject := "Mathematics", type := "PDF",
    size := "3.2 MB", color := "bg-red-50 dark:bg-red-900/20",
    textColor := "text-red-500 dark:text-red-400" }

def resource5 : Resource :=
  { id := 5, title := "React.js Crash Course", subject := "Comp. Sci", type := "PDF",
    size := "5.5 MB", color := "bg-blue-50 dark:bg-blue-900/20",
    textColor := "text-blue-500 dark:text-blue-400" }

/-- The `allResources` mock database of the Resources page. -/
def allResources : List Resource :=
  [resource1, resource2, resource3, resource4, resource5]

/-- The category chips of the Resources page. -/
def categories : List String := ["All", "Mathematics", "Comp. Sci", "Physics"]

/-- The predicate of the `filteredResources` computation: the item's title
must contain the query case-insensitively, and the selected category must be
"All" or equal the item's subject. -/
def resourceMatches (searchQuery selectedCategory : String) (resource : Resource) : Bool :=
  let matchesSearch := jsIncludes (jsToLower resource.title) (jsToLower searchQuery)
  let matchesCategory := selectedCategory == "All" || resource.subject == selectedCategory
  matchesSearch && matchesCategory

/-- The filter of the Resources page, generalized over the item list (the
source applies it to `allResources`). -/
def filterResources (searchQuery selectedCategory : String) (l : List Resource) : List Resource :=
  l.filter (resourceMatches searchQuery selectedCategory)

/-- `filteredResources` exactly as computed by the Resources page. -/
def filteredResources (searchQuery selectedCategory : String) : List Resource :=
  filterResources searchQuery selectedCategory allResources

/-! ## Chat Inbox page (`src/app/chat/page.tsx`)

The `chats` mock database and the `filteredChats` computation. -/

/-- One entry of the `chats` mock database. -/
structure Chat where
  id : String
  name : String
  message : String
  time : String
  unread : Nat
  color : String
  deriving DecidableEq, Repr

/-- The `chats` mock database of the Chat Inbox page. -/
def chats : List Chat :=
  [ { id := "nomsa", name := "Nomsa Dlamini", message := "Did you get the answer for Q3?",
      time := "10:30 AM", unread := 2, color := "bg-blue-400" },
    { id := "studygroup", name := "Study Group A",
      message := "Thabo: I'll bring the past papers.",
      time := "Yesterday", unread := 0, color := "bg-purple-400" },
    { id := "khotso", name := "Khotso Mokoena",
      message := "Thanks man, really appreciate it!",
      time := "Mon", unread := 0, color := "bg-pink-400" } ]

/-- The predicate of `filteredChats`: the chat name must contain the query
case-insensitively. -/
def chatMatches (query : String) (chat : Chat) : Bool :=
  jsIncludes (jsToLower chat.name) (jsToLower query)

/-- `filteredChats` exactly as computed by the Chat Inbox page. -/
def filteredChats (query : String) : List Chat :=
  chats.filter (chatMatches query)

/-! ## Find Peers page (`src/app/chat/new/page.tsx`)

The `mockStudents` pool and the `filteredStudents` computation. The page has
no text query at all: it filters by the selected university id (a nullable
string, with JavaScript truthiness: `null` and `""` both skip the check) and
by the selected year chip (the string "All" skips the check). -/

/-- One entry of the `mockStudents` mock database. -/
structure Student where
  name : String
  uni : String
  year : String
  course : String
  status : String
  deriving DecidableEq, Repr

/-- The `mockStudents` mock database of the Find Peers page, in source
order. -/
def mockStudents : List Student :=
  [ { name := "Sipho M.", uni := "ukzn", year := "3rd Year", course := "Comp Sci",
      status := "Looking for study buddy" },
    { name := "Thando Z.", uni := "ukzn", year := "1st Year", course := "Mathematics",
      status := "Need help with Calc" },
    { name := "Kyle V.", uni := "uct", year := "2nd Year", course := "Economics",
      status := "Exam prep group?" },
    { name := "Lerato K.", uni := "wits", year := "Honours", course := "Physics",
      status := "Available to tutor" },
    { name := "Jason D.", uni := "up", year := "1st Year", course := "Informatics",
      status := "Study Group A" } ]

/-- Embeds the guard `selectedUni && s.uni !== selectedUni` of rule 1:
the university check rejects the student only when a university is selected
(JavaScript-truthy: non-null and non-empty) and differs from the student's. -/
def uniRuleRejects : Option String → String → Bool
  | none, _ => false
  | some u, studentUni => !(u == "") && !(studentUni == u)

/-- The predicate of `filteredStudents`: rule 1 rejects on a selected
university mismatch, rule 2 rejects on a selected year mismatch
(unless the year chip is "All"), otherwise the student is kept. -/
def studentMatches (selectedUni : Option String) (selectedFilter : String)
    (s : Student) : Bool :=
  if uniRuleRejects selectedUni s.uni then false
  else if selectedFilter != "All" && s.year != selectedFilter then false
  else true

/-- The filter of the Find Peers page, generalized over the item list (the
source applies it to `mockStudents`). -/
def filterStudents (selectedUni : Option String) (selectedFilter : String)
    (l : List Student) : List Student :=
  l.filter (studentMatches selectedUni selectedFilter)

/-- `filteredStudents` exactly as computed by the Find Peers page. -/
def filteredStudents (selectedUni : Option String) (selectedFilter : String) : List Student :=
  filterStudents selectedUni selectedFilter mockStudents

/-! ## JavaScript bracket indexing on object literals

The dynamic pages index plain object literals (`chatData[chatId]`,
`messagesDB[chatId]`, `profiles[id.toLowerCase()]`). Bracket indexing in
JavaScript consults the whole prototype chain: an own property of the
literal yields its value, a property inherited from `Object.prototype`
(such as `constructor` or `toString`) yields the inherited function or
object — which is truthy — and only a key found nowhere on the chain yields
`undefined`, which is falsy. The pages' `|| fallback` therefore does not
fire on inherited keys. -/

/-- The property names every plain object literal inherits from
`Object.prototype` (the standard methods plus the Annex B accessors);
indexing a literal with one of these keys yields the inherited value. -/
def objectPrototypeKeys : List String :=
  ["constructor", "hasOwnProperty", "isPrototypeOf", "propertyIsEnumerable",
   "toLocaleString", "toString", "valueOf", "__proto__",
   "__defineGetter__", "__defineSetter__", "__lookupGetter__", "__lookupSetter__"]

/-- The result of `obj[key]` on an object literal typed `Record<string, α>`:
an own property carries a value of the record's value type; a key inherited
from `Object.prototype` carries a function or object that is not of the
value type; any other key is `undefined`. -/
inductive JsLookup (α : Type) where
  | ownValue (a : α)
  | inherited
  | undefinedProp
  deriving DecidableEq, Repr

/-- JavaScript truthiness of a lookup result: every value stored in these
literals is an object or array (truthy), every inherited prototype property
is a function or object (truthy), and `undefined` is falsy. -/
def JsLookup.truthy : {α : Type} → JsLookup α → Bool
  | _, .undefinedProp => false
  | _, _ => true

/-- Bracket indexing `obj[key]`: the literal's own properties first, then
the `Object.prototype` chain, then `undefined`. -/
def jsIndex {α : Type} (own : String → Option α) (key : String) : JsLookup α :=
  match own key with
  | some a => .ownValue a
  | none => if key ∈ objectPrototypeKeys then .inherited else .undefinedProp

/-- The JavaScript `x || y` applied to a lookup result: `x` when truthy,
otherwise the fallback value `y`. -/
def jsOrElse {α : Type} (x : JsLookup α) (y : α) : JsLookup α :=
  if x.truthy then x else .ownValue y

/-! ## Chat Detail page (`src/app/chat/[id]/page.tsx`)

The `chatData` user-metadata literal, the `messagesDB` literal, and the
lookup-with-fallback logic of the `ChatDetail` component. The literals are
embedded as their own-property tables; bracket indexing on them goes through
`jsIndex` above. -/

/-- One value of the `chatData` record. -/
structure ChatMeta where
  name : String
  initials : String
  status : String
  color : String
  deriving DecidableEq, Repr

def nomsaChatMeta : ChatMeta :=
  { name := "Nomsa Dlamini", initials := "ND", status := "Online", color := "bg-blue-400" }

def khotsoChatMeta : ChatMeta :=
  { name := "Khotso Mokoena", initials := "KM", status := "Last seen 2h ago",
    color := "bg-pink-400" }

def studygroupChatMeta : ChatMeta :=
  { name := "Study Group A", initials := "SG", status := "3 Online",
    color := "bg-purple-400" }

/-- The own properties of the `chatData` object literal. -/
def chatData (key : String) : Option ChatMeta :=
  if key = "nomsa" then some nomsaChatMeta
  else if key = "khotso" then some khotsoChatMeta
  else if key = "studygroup" then some studygroupChatMeta
  else none

/-- One message of the `messagesDB` record. -/
structure ChatMessage where
  text : String
  time : String
  isMe : Bool
  senderName : Option String := none
  deriving DecidableEq, Repr

/-- The own properties of the `messagesDB` object literal. -/
def messagesDB (key : String) : Option (List ChatMessage) :=
  if key = "nomsa" then some
    [ { text := "Hey Thabo! Are you coming online for the study group session later?",
        time := "10:30 AM", isMe := false },
      { text := "Yes! I'll be there.", time := "10:32 AM", isMe := true },
      { text := "Did you get the answer for Q3?", time := "10:33 AM", isMe := false } ]
  else if key = "khotso" then some
    [ { text := "Yo, are you done with the CS assignment?", time := "Mon", isMe := true },
      { text := "Yeah just submitted it now.", time := "Mon", isMe := false },
      { text := "Thanks man, really appreciate the help!", time := "Mon", isMe := false } ]
  else if key = "studygroup" then some
    [ { text := "Guys, are we meeting at the library or online?", time := "Yesterday",
        isMe := false, senderName := some "Sipho" },
      { text := "I think online is better today.", time := "Yesterday",
        isMe := false, senderName := some "Nomsa" },
      { text := "Cool. I'll bring the past papers.", time := "Yesterday", isMe := true } ]
  else none

/-- The user lookup of `ChatDetail`:
`chatData[id.toLowerCase()] || chatData['nomsa']`. -/
def chatDetailUser (id : String) : JsLookup ChatMeta :=
  jsOrElse (jsIndex chatData (jsToLower id)) nomsaChatMeta

/-- The message lookup of `ChatDetail`:
`messagesDB[id.toLowerCase()] || []`. -/
def chatDetailMessages (id : String) : JsLookup (List ChatMessage) :=
  jsOrElse (jsIndex messagesDB (jsToLower id)) []

/-- The render of the `ChatDetail` page. It succeeds with the user metadata
and the message list when both lookups carried values of the record types
(possibly via the fallbacks). An inherited prototype value instead reaches
`messages.map(...)` and `user.name.split(' ')` and throws a `TypeError`,
modelled as `none`. -/
def chatDetailRender (id : String) : Option (ChatMeta × List ChatMessage) :=
  match chatDetailUser id, chatDetailMessages id with
  | .ownValue u, .ownValue ms => some (u, ms)
  | _, _ => none

/-! ## Profile Detail page (`src/app/chat/profile/[id]/page.tsx`)

The untyped `profiles` record branches on a `type` field that is either
`"user"` or `"group"`, each shape with its own fields; we embed it as a
two-constructor inductive. -/

/-- One member entry of a group profile. -/
structure GroupMember where
  name : String
  role : String
  you : Bool := false
  deriving DecidableEq, Repr

/-- One value of the `profiles` record: a user profile or a group profile. -/
inductive Profile where
  | user (name initials color role bio : String) (commonGroups : List String)
      (email : String)
  | group (name initials color description : String) (members : List GroupMember)
  deriving DecidableEq, Repr

def nomsaProfile : Profile :=
  .user "Nomsa Dlamini" "ND" "bg-blue-400" "Mathematics • 3rd Year"
    "Math major who loves calculus and statistics. Always down for a study session at the library!"
    ["Study Group A", "Calc 101"]
    "nomsa.d@student.university.ac.za"

def khotsoProfile : Profile :=
  .user "Khotso Mokoena" "KM" "bg-pink-400" "Computer Science • 2nd Year"
    "Coding is life. Currently struggling with Algorithms. Let's pair program!"
    ["CS 2024", "Hackathon Team"]
    "khotso.m@student.university.ac.za"

def studygroupProfile : Profile :=
  .group "Study Group A" "SG" "bg-purple-400"
    "Official study group for Calculus 101. We meet every Tuesday and Thursday at the main library."
    [ { name := "Thabo Nkosi", role := "Admin", you := true },
      { name := "Nomsa Dlamini", role := "Member" },
      { name := "Khotso Mokoena", role := "Member" },
      { name := "Sipho Zulu", role := "Member" } ]

/-- The own properties of the `profiles` object literal. -/
def profiles (key : String) : Option Profile :=
  if key = "nomsa" then some nomsaProfile
  else if key = "khotso" then some khotsoProfile
  else if key = "studygroup" then some studygroupProfile
  else none

/-- The lookup of `ChatProfilePage`:
`profiles[id.toLowerCase()] || profiles['nomsa']`. -/
def chatProfile (id : String) : JsLookup Profile :=
  jsOrElse (jsIndex profiles (jsToLower id)) nomsaProfile

/-- The render of `ChatProfilePage`. It succeeds with the profile when the
lookup carried a profile (possibly Nomsa via the fallback). An inherited
prototype value has no `type` field equal to "group", so the user layout
runs and `profile.commonGroups.map(...)` throws a `TypeError`, modelled as
`none`. -/
def chatProfileRender (id : String) : Option Profile :=
  match chatProfile id with
  | .ownValue p => some p
  | _ => none

/-! ## Manage Uploads page (`src/app/profile/uploads/page.tsx`)

The `uploads` state, the `deletingId` tracker, and the `handleDelete`
handler. `handleDelete` first asks for confirmation and returns with no
state change when the confirmation is declined; a confirmed delete (after
the simulated delay) replaces the list by
`prev.filter(item => item.id !== id)` and resets `deletingId` to null. -/

/-- One entry of the `uploads` state. -/
structure Upload where
  id : Nat
  name : String
  type : String
  size : String
  date : String
  autoDelete : String
  deriving DecidableEq, Repr

/-- The initial `uploads` state of the Manage Uploads page. -/
def initialUploads : List Upload :=
  [ { id := 1, name := "Calculus 101 Finals", type := "PDF", size := "2.4 MB",
      date := "Oct 12, 2025", autoDelete := "Never" },
    { id := 2, name := "Physics Lab Results", type := "XLS", size := "800 KB",
      date := "Oct 15, 2025", autoDelete := "Dec 31, 2025" },
    { id := 3, name := "Project Proposal v2", type := "DOC", size := "1.1 MB",
      date := "Oct 20, 2025", autoDelete := "Never" } ]

/-- The component state touched by `handleDelete`. -/
structure UploadsState where
  uploads : List Upload
  deletingId : Option Nat
  deriving DecidableEq, Repr

/-- `handleDelete`, with the `confirm(...)` dialog's answer passed in and the
simulated delay elided: a declined confirmation returns the state untouched;
a confirmed delete filters out every entry with the given id and clears the
`deletingId` tracker. -/
def handleDelete (confirmed : Bool) (st : UploadsState) (id : Nat) : UploadsState :=
  if !confirmed then st
  else { uploads := st.uploads.filter (fun item => item.id != id), deletingId := none }

/-! ## Upload Resource page (`src/app/resources/upload/page.tsx`)

The `file`/`isUploading` state and the `handleSubmit` handler. The handler
has no validation and no failure path: it turns the spinner on, waits, shows
the demo alert, and turns the spinner off; the file's size is never
inspected. The "(Max 10MB)" limit appears only as display text in the drop
zone. -/

/-- The file object selected by the user (name and size in bytes). -/
structure SelectedFile where
  name : String
  size : Nat
  deriving DecidableEq, Repr

/-- The component state of the Upload Resource page. -/
structure UploadPageState where
  file : Option SelectedFile
  isUploading : Bool
  deriving DecidableEq, Repr

/-- The error taxonomy of the specification's upload contract. -/
inductive UploadError where
  | OversizeFile
  | UnsupportedType
  deriving DecidableEq, Repr

/-- The 10 MB limit quoted in the drop zone's display text, in bytes. -/
def maxUploadBytes : Nat := 10 * 1024 * 1024

/-- The submit button is disabled when no file is selected or an upload is
in flight (`disabled={!file || isUploading}`). -/
def submitDisabled (st : UploadPageState) : Bool :=
  st.file.isNone || st.isUploading

/-- `handleSubmit`: turns the spinner on. No field of the state is read and
no error is raised. -/
def handleSubmit (st : UploadPageState) : UploadPageState :=
  { st with isUploading := true }

/-- The `setTimeout` continuation of `handleSubmit`: turns the spinner off
and shows the demo alert; it produces no error value. -/
def submitTimeout (st : UploadPageState) : UploadPageState × Option UploadError :=
  ({ st with isUploading := false }, none)

/-- The error outcome of a complete submission (`handleSubmit` followed by
its timeout continuation). -/
def submitOutcome (st : UploadPageState) : Option UploadError :=
  (submitTimeout (handleSubmit st)).2

/-! ## Conversation Store read markers

Modelled from the spec: no Conversation Store exists anywhere in the
repository's code, so `markRead` is modelled from §4.1 of the
specification: "markRead(conversationId, peerId, uptoMessageId) moves that
peer's read marker forward only (never backward); a marker regression
attempt is a silent no-op, not an error." Message positions within a
conversation are totally ordered (§3), so a marker is a natural number. -/

/-- Modelled from the spec: the per-(conversation, peer) read markers of the
Conversation Store, absent from the source. -/
structure ReadMarkers where
  marker : String → String → Nat

/-- Modelled from the spec: `markRead(conversationId, peerId, uptoMessageId)`
moves the (conversation, peer) read marker forward only; a regression
attempt leaves it where it is and raises no error. -/
def markRead (st : ReadMarkers) (conversationId peerId : String)
    (uptoMessageId : Nat) : ReadMarkers :=
  { marker := fun c p =>
      if c = conversationId ∧ p = peerId then
        max (st.marker conversationId peerId) uptoMessageId
      else st.marker c p }

/-! ## Helper lemmas: predicate characterizations -/

/-- `resourceMatches` holds exactly when the lowered query is a substring of
the lowered title and the category is "All" or equals the subject. -/
theorem resourceMatches_iff (searchQuery selectedCategory : String) (r : Resource) :
    resourceMatches searchQuery selectedCategory r = true ↔
      (SubstringOf (jsToLower searchQuery) (jsToLower r.title)
        ∧ (selectedCategory = "All" ∨ r.subject = selectedCategory)) := by
  simp [resourceMatches, Bool.and_eq_true, Bool.or_eq_true, beq_iff_eq, jsIncludes_iff]

/-- `chatMatches` holds exactly when the lowered query is a substring of the
lowered chat name. -/
theorem chatMatches_iff (query : String) (c : Chat) :
    chatMatches query c = true ↔ SubstringOf (jsToLower query) (jsToLower c.name) := by
  simp [chatMatches, jsIncludes_iff]

/-- `studentMatches` holds exactly when any truthily selected university
equals the student's and, unless the year chip is "All", the selected year
equals the student's. -/
theorem studentMatches_iff (selectedUni : Option String) (selectedFilter : String)
    (s : Student) :
    studentMatches selectedUni selectedFilter s = true ↔
      ((∀ u, selectedUni = some u → u ≠ "" → s.uni = u)
        ∧ (selectedFilter ≠ "All" → s.year = selectedFilter)) := by
  cases selectedUni with
  | none =>
      by_cases hf : selectedFilter = "All"
      · subst hf; simp [studentMatches, uniRuleRejects]
      · by_cases hy : s.year = selectedFilter <;>
          simp [studentMatches, uniRuleRejects, hf, hy]
  | some u =>
      by_cases hu : u = ""
      · subst hu
        by_cases hf : selectedFilter = "All"
        · subst hf; simp [studentMatches, uniRuleRejects]
        · by_cases hy : s.year = selectedFilter <;>
            simp [studentMatches, uniRuleRejects, hf, hy]
      · by_cases hsu : s.uni = u
        · by_cases hf : selectedFilter = "All"
          · subst hf; simp [studentMatches, uniRuleRejects, hu, hsu]
          · by_cases hy : s.year = selectedFilter <;>
              simp [studentMatches, uniRuleRejects, hu, hsu, hf, hy]
        · simp [studentMatches, uniRuleRejects, hu, hsu]

/-! ## Claim theorems -/

/-- Claim C1: search soundness and completeness. For every list of items,
query, and filter set, the filtered result is a subset (a sublist) of the
unfiltered list, every returned item satisfies every supplied predicate, and
every item that satisfies all supplied predicates is returned (so no
excluded item satisfies all of them). Stated for the resource search and for
the student-discovery filter. -/
theorem search_soundness_completeness :
    ∀ (l : List Resource) (searchQuery selectedCategory : String),
      List.Sublist (filterResources searchQuery selectedCategory l) l
      ∧ (∀ r ∈ filterResources searchQuery selectedCategory l,
          jsIncludes (jsToLower r.title) (jsToLower searchQuery) = true
          ∧ (selectedCategory == "All" || r.subject == selectedCategory) = true)
      ∧ (∀ r ∈ l,
          jsIncludes (jsToLower r.title) (jsToLower searchQuery) = true →
          (selectedCategory == "All" || r.subject == selectedCategory) = true →
          r ∈ filterResources searchQuery selectedCategory l)
      ∧ ∀ (ls : List Student) (selectedUni : Option String) (selectedFilter : String),
          List.Sublist (filterStudents selectedUni selectedFilter ls) ls
          ∧ (∀ s ∈ filterStudents selectedUni selectedFilter ls,
              studentMatches selectedUni selectedFilter s = true)
          ∧ (∀ s ∈ ls, studentMatches selectedUni selectedFilter s = true →
              s ∈ filterStudents selectedUni selectedFilter ls) := by
  intro l searchQuery selectedCategory
  refine ⟨List.filter_sublist l, ?_, ?_, ?_⟩
  · intro r hr
    have h := (List.mem_filter.mp hr).2
    simpa [resourceMatches, Bool.and_eq_true] using h
  · intro r hrl h1 h2
    exact List.mem_filter.mpr ⟨hrl, by simp [resourceMatches, h1, h2]⟩
  · intro ls selectedUni selectedFilter
    refine ⟨List.filter_sublist ls, ?_, ?_⟩
    · intro s hs
      exact (List.mem_filter.mp hs).2
    · intro s hsl hm
      exact List.mem_filter.mpr ⟨hsl, hm⟩

/-- Witness for C1: the completeness component at a concrete input — the
Calculus resource matches the query "calc" with category "All", so it is in
the filtered list. -/
theorem search_soundness_completeness_witness :
    resource1 ∈ filterResources "calc" "All" allResources :=
  (search_soundness_completeness allResources "calc" "All").2.2.1 resource1
    (by decide) (by decide) (by decide)

/-- Claim C2: filter predicate semantics. Supplied predicates combine
conjunctively; a text predicate holds exactly on case-insensitive substring
containment; an attribute predicate holds exactly on equality; an absent
filter value ("All" for the category and year chips, null or the empty
string for the selected university) matches every item. Stated for the
resource filter, the chat-inbox filter, and the student-discovery filter. -/
theorem filter_predicate_semantics :
    (∀ (searchQuery selectedCategory : String) (r : Resource),
        resourceMatches searchQuery selectedCategory r = true ↔
          (SubstringOf (jsToLower searchQuery) (jsToLower r.title)
            ∧ (selectedCategory = "All" ∨ r.subject = selectedCategory)))
    ∧ (∀ (query : String) (c : Chat),
        chatMatches query c = true ↔
          SubstringOf (jsToLower query) (jsToLower c.name))
    ∧ (∀ (selectedUni : Option String) (selectedFilter : String) (s : Student),
        studentMatches selectedUni selectedFilter s = true ↔
          ((∀ u, selectedUni = some u → u ≠ "" → s.uni = u)
            ∧ (selectedFilter ≠ "All" → s.year = selectedFilter))) :=
  ⟨resourceMatches_iff, chatMatches_iff, studentMatches_iff⟩

/-- Witness for C2: evaluating the resource predicate at the query "calc",
the category "All" and the Calculus resource yields the substring fact. -/
theorem filter_predicate_semantics_witness :
    SubstringOf (jsToLower "calc") (jsToLower "Calculus 101 Finals")
      ∧ ("All" = "All" ∨ resource1.subject = "All") :=
  (filter_predicate_semantics.1 "calc" "All" resource1).mp (by decide)

/-- Claim C3: filter stability and identity. For every item list, query and
category the filtered items keep their relative input order (the result is a
sublist of the input), and filtering with the empty query and the "All"
category returns the whole input list unchanged. -/
theorem filter_stability_identity :
    ∀ (l : List Resource) (searchQuery selectedCategory : String),
      List.Sublist (filterResources searchQuery selectedCategory l) l
      ∧ filterResources "" "All" l = l := by
  intro l searchQuery selectedCategory
  refine ⟨List.filter_sublist l, List.filter_eq_self.mpr ?_⟩
  intro r _
  have hlow : jsToLower "" = "" := by decide
  simp [resourceMatches, hlow, jsIncludes_empty]

/-- Claim C5: the concrete resource-search scenario. With the library as in
the source (containing "Calculus 101 Finals" with subject "Mathematics"),
the query "calc" with no category filter returns exactly that resource, and
the query "calc" with the "Physics" category returns the empty list. -/
theorem concrete_resource_search_scenario :
    filteredResources "calc" "All" = [resource1]
      ∧ filteredResources "calc" "Physics" = [] := by
  constructor <;> decide

/-- Counterexample to Claim C4: with no university selected and the "All"
year chip (a filter set that keeps every peer), the student list comes back
in the source's `mockStudents` order, which is not ascending by name —
"Thando Z." precedes "Kyle V.". -/
theorem peer_search_order_counterexample :
    (filteredStudents none "All").map Student.name
        = ["Sipho M.", "Thando Z.", "Kyle V.", "Lerato K.", "Jason D."]
      ∧ ¬ List.Sorted (fun a b : String => a ≤ b)
          ((filteredStudents none "All").map Student.name) := by
  refine ⟨by decide, ?_⟩
  intro h
  have hnames : (filteredStudents none "All").map Student.name
      = ["Sipho M.", "Thando Z.", "Kyle V.", "Lerato K.", "Jason D."] := by decide
  rw [hnames] at h
  have h2 : ("Thando Z." : String) ≤ "Kyle V." :=
    (List.sorted_cons.mp (List.sorted_cons.mp h).2).1 "Kyle V." (by simp)
  rw [String.le_iff_toList_le] at h2
  revert h2
  decide

/-- Claim C4 as amended: the Find Peers page has no text query and no course
filter; `filteredStudents` keeps exactly the students whose university
matches a truthily selected university and whose year matches the selected
year chip (unless it is "All"), in the original `mockStudents` order (the
result is a sublist of `mockStudents`, and the unfiltered case returns the
pool verbatim, not sorted by name). -/
theorem peer_filter_amended :
    ∀ (selectedUni : Option String) (selectedFilter : String),
      List.Sublist (filteredStudents selectedUni selectedFilter) mockStudents
      ∧ (∀ s ∈ filteredStudents selectedUni selectedFilter,
          (∀ u, selectedUni = some u → u ≠ "" → s.uni = u)
          ∧ (selectedFilter ≠ "All" → s.year = selectedFilter))
      ∧ (∀ s ∈ mockStudents,
          (∀ u, selectedUni = some u → u ≠ "" → s.uni = u) →
          (selectedFilter ≠ "All" → s.year = selectedFilter) →
          s ∈ filteredStudents selectedUni selectedFilter)
      ∧ filteredStudents none "All" = mockStudents := by
  intro selectedUni selectedFilter
  refine ⟨List.filter_sublist mockStudents, ?_, ?_, ?_⟩
  · intro s hs
    exact (studentMatches_iff selectedUni selectedFilter s).mp (List.mem_filter.mp hs).2
  · intro s hsl h1 h2
    exact List.mem_filter.mpr
      ⟨hsl, (studentMatches_iff selectedUni selectedFilter s).mpr ⟨h1, h2⟩⟩
  · exact List.filter_eq_self.mpr fun s _ =>
      (studentMatches_iff none "All" s).mpr ⟨by simp, by simp⟩

/-- Witness for C4 (amended): selecting UCT with the "All" year chip returns
Kyle, whose university is indeed "uct". -/
theorem peer_filter_amended_witness :
    (∀ u, (some "uct" : Option String) = some u → u ≠ "" →
        ({ name := "Kyle V.", uni := "uct", year := "2nd Year", course := "Economics",
           status := "Exam prep group?" } : Student).uni = u)
      ∧ ("All" ≠ "All" →
        ({ name := "Kyle V.", uni := "uct", year := "2nd Year", course := "Economics",
           status := "Exam prep group?" } : Student).year = "All") :=
  (peer_filter_amended (some "uct") "All").2.1 _ (by decide)

/-- Counterexample to Claim C6: an 11 MB file exceeds the displayed 10 MB
limit, yet submitting it produces no `OversizeFile` error — the handler has
no failure path at all. -/
theorem upload_oversize_counterexample :
    ({ name := "big.pdf", size := 11 * 1024 * 1024 } : SelectedFile).size > maxUploadBytes
      ∧ submitOutcome
          { file := some { name := "big.pdf", size := 11 * 1024 * 1024 },
            isUploading := false }
          ≠ some UploadError.OversizeFile := by
  constructor
  · decide
  · decide

/-- Claim C6 as amended: the upload handler performs no size validation —
every submission completes without any error, whatever the file's size; the
10 MB limit exists only as display text. The completed submission also
leaves the selected file untouched. -/
theorem upload_no_size_check :
    ∀ st : UploadPageState,
      submitOutcome st = none
      ∧ submitOutcome st ≠ some UploadError.OversizeFile
      ∧ (submitTimeout (handleSubmit st)).1.file = st.file := by
  intro st
  exact ⟨rfl, by simp [submitOutcome, submitTimeout], rfl⟩

/-- Claim C7: atomicity on failure. The only failing operation in the
source, a delete whose confirmation dialog is declined, returns before any
state change: the uploads list and the `deletingId` tracker are exactly as
before. A completed upload submission likewise mutates no store — the only
persistent field it touches, the selected file, is unchanged. -/
theorem failed_operation_atomicity :
    ∀ (st : UploadsState) (id : Nat),
      handleDelete false st id = st
      ∧ ∀ st2 : UploadPageState, (submitTimeout (handleSubmit st2)).1.file = st2.file := by
  intro st id
  exact ⟨rfl, fun _ => rfl⟩

/-- Claim C8 (modelled from the spec, no Conversation Store exists in the
source): read markers are monotone. `markRead c p m` followed by
`markRead c p m'` with `m'` at or before `m` leaves the marker at `m`
(starting from a marker at or before `m`); `markRead` never moves a marker
backward; and a regression attempt is a silent no-op on the whole state,
not an error. -/
theorem markRead_monotone :
    (∀ (st : ReadMarkers) (c p : String) (m m' : Nat),
        st.marker c p ≤ m → m' ≤ m →
          (markRead (markRead st c p m) c p m').marker c p = m)
    ∧ (∀ (st : ReadMarkers) (c p : String) (m : Nat),
        st.marker c p ≤ (markRead st c p m).marker c p)
    ∧ (∀ (st : ReadMarkers) (c p : String) (m : Nat),
        m ≤ st.marker c p → markRead st c p m = st) := by
  refine ⟨?_, ?_, ?_⟩
  · intro st c p m m' h1 h2
    simp [markRead]
    omega
  · intro st c p m
    simp [markRead]
  · intro st c p m h
    cases st with
    | mk f =>
        show ReadMarkers.mk _ = ReadMarkers.mk f
        congr 1
        funext c2 p2
        by_cases hc : c2 = c ∧ p2 = p
        · obtain ⟨rfl, rfl⟩ := hc
          simp [Nat.max_eq_left h]
        · simp [markRead, hc]

/-- Witness for C8: from the all-zero marker state, marking conversation
"c1" read for peer "p1" up to message 5 and then attempting a regression to
message 3 leaves the marker at 5. -/
theorem markRead_monotone_witness :
    (markRead (markRead ⟨fun _ _ => 0⟩ "c1" "p1" 5) "c1" "p1" 3).marker "c1" "p1" = 5 :=
  markRead_monotone.1 ⟨fun _ _ => 0⟩ "c1" "p1" 5 3 (by decide) (by decide)

/-- Counterexample to Claim C9: the id "constructor" is not present in any
mock database, yet the lookup does not fall back to Nomsa — bracket indexing
finds the truthy `constructor` property inherited from `Object.prototype`,
the `||` fallback never fires, the message list is not empty, and both
pages crash rendering instead of showing Nomsa's data. -/
theorem prototype_key_fallback_counterexample :
    chatData (jsToLower "constructor") = none
      ∧ profiles (jsToLower "constructor") = none
      ∧ chatDetailUser "constructor" ≠ JsLookup.ownValue nomsaChatMeta
      ∧ chatDetailMessages "constructor" ≠ JsLookup.ownValue ([] : List ChatMessage)
      ∧ chatDetailRender "constructor" = none
      ∧ chatProfile "constructor" ≠ JsLookup.ownValue nomsaProfile
      ∧ chatProfileRender "constructor" = none := by
  refine ⟨by decide, by decide, by decide, by decide, by decide, by decide, by decide⟩

/-- Claim C9 as amended: for any id whose lowercased form is neither an own
key of the mock databases nor a property inherited from `Object.prototype`,
no lookup fails: the chat detail page falls back to Nomsa's user metadata
and renders an empty message list (zero message bubbles), and the profile
detail page falls back to Nomsa's complete user profile. -/
theorem unknown_id_fallback_amended :
    ∀ id : String,
      chatData (jsToLower id) = none → jsToLower id ∉ objectPrototypeKeys →
        chatDetailUser id = JsLookup.ownValue nomsaChatMeta
        ∧ chatDetailMessages id = JsLookup.ownValue ([] : List ChatMessage)
        ∧ chatDetailRender id = some (nomsaChatMeta, [])
        ∧ chatProfile id = JsLookup.ownValue nomsaProfile
        ∧ chatProfileRender id = some nomsaProfile := by
  intro id h hproto
  have hm : messagesDB (jsToLower id) = none := by
    revert h
    unfold chatData messagesDB
    split_ifs <;> simp
  have hp : profiles (jsToLower id) = none := by
    revert h
    unfold chatData profiles
    split_ifs <;> simp
  have hu : chatDetailUser id = JsLookup.ownValue nomsaChatMeta := by
    simp [chatDetailUser, jsIndex, jsOrElse, JsLookup.truthy, h, hproto]
  have hme : chatDetailMessages id = JsLookup.ownValue ([] : List ChatMessage) := by
    simp [chatDetailMessages, jsIndex, jsOrElse, JsLookup.truthy, hm, hproto]
  have hpr : chatProfile id = JsLookup.ownValue nomsaProfile := by
    simp [chatProfile, jsIndex, jsOrElse, JsLookup.truthy, hp, hproto]
  exact ⟨hu, hme, by simp [chatDetailRender, hu, hme], hpr,
    by simp [chatProfileRender, hpr]⟩

/-- Witness for C9 (amended): the id "Zama" is on neither the mock databases
nor the prototype chain, so the chat page shows Nomsa's metadata with zero
message bubbles and the profile page shows Nomsa's profile. -/
theorem unknown_id_fallback_amended_witness :
    chatDetailUser "Zama" = JsLookup.ownValue nomsaChatMeta
      ∧ chatDetailMessages "Zama" = JsLookup.ownValue ([] : List ChatMessage)
      ∧ chatDetailRender "Zama" = some (nomsaChatMeta, [])
      ∧ chatProfile "Zama" = JsLookup.ownValue nomsaProfile
      ∧ chatProfileRender "Zama" = some nomsaProfile :=
  unknown_id_fallback_amended "Zama" (by decide) (by decide)

/-- Claim C10: delete frame property. A confirmed delete keeps exactly the
entries whose id differs from the deleted id — an entry survives with all
its fields if and only if it was present with a different id — in their
original relative order, and deleting an id that no entry carries leaves the
uploads list unchanged. -/
theorem delete_frame_property :
    ∀ (st : UploadsState) (id : Nat),
      (∀ x : Upload, x ∈ (handleDelete true st id).uploads ↔ (x ∈ st.uploads ∧ x.id ≠ id))
      ∧ List.Sublist (handleDelete true st id).uploads st.uploads
      ∧ (id ∉ st.uploads.map Upload.id → (handleDelete true st id).uploads = st.uploads) := by
  intro st id
  refine ⟨?_, ?_, ?_⟩
  · intro x
    simp [handleDelete, List.mem_filter]
  · exact List.filter_sublist st.uploads
  · intro hid
    refine List.filter_eq_self.mpr ?_
    intro x hx
    have : x.id ≠ id := fun he => hid (he ▸ List.mem_map_of_mem Upload.id hx)
    simpa using this

/-- Witness for C10: deleting the absent id 99 from the initial uploads list
leaves it unchanged. -/
theorem delete_frame_property_witness :
    (handleDelete true ⟨initialUploads, none⟩ 99).uploads = initialUploads :=
  (delete_frame_property ⟨initialUploads, none⟩ 99).2.2 (by decide)

end StudyConnect
